import Mathlib

/-!
Verification of the shutdown_db shared registry (hashtable.c), its hooks
(shutdown_db.c), the SQL entry points (functions.c) and the killer
background worker (bgworker.c), as a shallow embedding.  The shared hash
table is modelled as a list of entries with the dynahash operations
(HASH_FIND, HASH_ENTER_NULL, HASH_REMOVE) made explicit; the aggregate
counters num_ht and num_bgw are C ints, modelled as Int so that the
unconditional decrements of the source are represented exactly.  Each C
function of the registry becomes a pure state-passing function; the
process-environment inputs (MyDatabaseId, IsTransactionBlock, MyProcPid,
poll results, spawn success) become explicit parameters.
-/

/-- Database object identifier (Oid). -/
abbrev Oid := Nat

/-- InvalidOid, the zero Oid. -/
def InvalidOid : Oid := 0

/-- InvalidPid from miscadmin.h: (-1). -/
def InvalidPid : Int := -1

/-- enum mode from shutdown_db.h: INIT = 0. -/
def INIT : Nat := 0

/-- enum mode: NORMAL = 1. -/
def NORMAL : Nat := 1

/-- enum mode: ABORT = 2. -/
def ABORT : Nat := 2

/-- enum mode: IMMEDIATE = 3. -/
def IMMEDIATE : Nat := 3

/-- enum mode: TRANSACTIONAL = 4. -/
def TRANSACTIONAL : Nat := 4

/-- One hash-table entry (sddbEntry in shutdown_db.h): the hash key
(key.dbid) followed by the payload fields dbid, mode, is_running and pid.
The per-entry spinlock mutex carries no state and is not modelled. -/
structure sddbEntry where
  key : Oid
  dbid : Oid
  mode : Nat
  is_running : Bool
  pid : Int
deriving DecidableEq, Repr

/-- The shared state: sddbSharedState (num_ht, num_bgw) from shutdown_db.h
together with the shared hash table sddb_hash it guards.  capacity is the
max_db_number sizing of ShmemInitHash (shutdown_db.c).  The LWLock and the
spinlock elock serialize access and carry no state of their own. -/
structure sddbSharedState where
  capacity : Nat
  table : List sddbEntry
  num_ht : Int
  num_bgw : Int
deriving DecidableEq, Repr

/-- hash_search(sddb_hash, key, HASH_FIND, NULL): the entry holding the
given key, if any (keys are unique in a real hash table; on a list we take
the first match, which is the unique match on tables built by the
operations below). -/
def find_key : List sddbEntry → Oid → Option sddbEntry
  | [], _ => none
  | e :: t, d => if e.key = d then some e else find_key t d

/-- Mutation through the pointer returned by hash_search: rewrite the
fields of the entry holding the given key, in place. -/
def update_first : List sddbEntry → Oid → (sddbEntry → sddbEntry) → List sddbEntry
  | [], _, _ => []
  | e :: t, d, f => if e.key = d then f e :: t else e :: update_first t d f

/-- hash_search(sddb_hash, key, HASH_REMOVE, NULL): delete the entry
holding the given key; the table is unchanged when the key is absent. -/
def erase_first : List sddbEntry → Oid → List sddbEntry
  | [], _ => []
  | e :: t, d => if e.key = d then t else e :: erase_first t d

/-- alloc_entry (hashtable.c:33-57): hash_search with HASH_ENTER_NULL under
the exclusive lock.  If an entry with the key already exists it is returned
as is (found = true, no initialization); otherwise, while the table has
room, a fresh entry is created and initialized to dbid = InvalidOid,
mode = INIT, is_running = false, pid = InvalidPid; with the table full,
NULL is returned (modelled as none). -/
def alloc_entry (st : sddbSharedState) (d : Oid) : Option sddbSharedState :=
  match find_key st.table d with
  | some _ => some st
  | none =>
    if st.table.length < st.capacity then
      some { st with table := st.table ++
        [{ key := d, dbid := InvalidOid, mode := INIT, is_running := false, pid := InvalidPid }] }
    else
      none

/-- The field store of sddb_store_entry (hashtable.c:99-107): overwrite
dbid, mode and is_running and reset pid to InvalidPid under the entry
mutex. -/
def store_fields (d : Oid) (mode : Nat) (is_running : Bool) (e : sddbEntry) : sddbEntry :=
  { e with dbid := d, mode := mode, is_running := is_running, pid := InvalidPid }

/-- The exclusive-lock phase of sddb_store_entry (hashtable.c:88-113):
alloc_entry, then the field store through the returned entry pointer, then
num_ht++ under elock.  Note that when alloc_entry finds an existing entry
this phase overwrites it and still increments num_ht. -/
def store_exclusive (st : sddbSharedState) (d : Oid) (mode : Nat) (is_running : Bool) :
    Bool × sddbSharedState :=
  match alloc_entry st d with
  | none => (false, st)
  | some st1 =>
    (true, { st1 with table := update_first st1.table d (store_fields d mode is_running),
                      num_ht := st1.num_ht + 1 })

/-- sddb_store_entry (hashtable.c:63-116) on an initialized registry: a
shared-lock existence probe that rejects an already-stored dbid, then the
exclusive-lock phase. -/
def sddb_store_entry (st : sddbSharedState) (d : Oid) (mode : Nat) (is_running : Bool) :
    Bool × sddbSharedState :=
  match find_key st.table d with
  | some _ => (false, st)
  | none => store_exclusive st d mode is_running

/-- sddb_find_entry (hashtable.c:122-169) on an initialized registry: the
num_ht = 0 quick check under elock (returning false without taking the
structural lock), then a shared-lock HASH_FIND; with is_running set, true
only when the entry's is_running flag is set. -/
def sddb_find_entry (st : sddbSharedState) (d : Oid) (is_running : Bool) : Bool :=
  if st.num_ht = 0 then false
  else
    match find_key st.table d with
    | none => false
    | some e => if is_running then e.is_running else true

/-- sddb_get_pid (hashtable.c:179-219) on an initialized registry:
exclusive-lock HASH_FIND; InvalidPid when absent; otherwise the stored pid,
gated by is_running when is_active is set. -/
def sddb_get_pid (st : sddbSharedState) (d : Oid) (is_active : Bool) : Int :=
  match find_key st.table d with
  | none => InvalidPid
  | some e => if is_active then (if e.is_running then e.pid else InvalidPid) else e.pid

/-- sddb_set_entry (hashtable.c:224-258) on an initialized registry:
exclusive-lock HASH_FIND; false when absent; otherwise set is_running
under the entry mutex. -/
def sddb_set_entry (st : sddbSharedState) (d : Oid) (is_running : Bool) :
    Bool × sddbSharedState :=
  match find_key st.table d with
  | none => (false, st)
  | some _ =>
    (true, { st with table := update_first st.table d (fun e => { e with is_running := is_running }) })

/-- sddb_set_pid2entry (hashtable.c:265-299) on an initialized registry:
exclusive-lock HASH_FIND; false when absent; otherwise set pid under the
entry mutex. -/
def sddb_set_pid2entry (st : sddbSharedState) (d : Oid) (pid : Int) :
    Bool × sddbSharedState :=
  match find_key st.table d with
  | none => (false, st)
  | some _ =>
    (true, { st with table := update_first st.table d (fun e => { e with pid := pid }) })

/-- sddb_delete_entry (hashtable.c:305-324) on an initialized registry:
HASH_REMOVE under the exclusive lock, then num_ht-- under elock.  The
decrement is unconditional: it happens whether or not the key was present
(the Assert(0 < num_ht) is compiled out of production builds and in any
case only rejects the decrement from zero, not from a table that does not
contain the key). -/
def sddb_delete_entry (st : sddbSharedState) (d : Oid) : sddbSharedState :=
  { st with table := erase_first st.table d, num_ht := st.num_ht - 1 }

/-- sddb_store_entry including the initial safety check (hashtable.c:71):
with sddb or sddb_hash not set up (modelled as none) it returns false
without touching anything. -/
def sddb_store_entry_top : Option sddbSharedState → Oid → Nat → Bool →
    Bool × Option sddbSharedState
  | none, _, _, _ => (false, none)
  | some st, d, m, r => ((sddb_store_entry st d m r).1, some (sddb_store_entry st d m r).2)

/-- sddb_find_entry including the initial safety check (hashtable.c:130). -/
def sddb_find_entry_top : Option sddbSharedState → Oid → Bool → Bool
  | none, _, _ => false
  | some st, d, r => sddb_find_entry st d r

/-- sddb_get_pid including the initial safety check (hashtable.c:189). -/
def sddb_get_pid_top : Option sddbSharedState → Oid → Bool → Int
  | none, _, _ => InvalidPid
  | some st, d, a => sddb_get_pid st d a

/-- sddb_set_entry including the initial safety check (hashtable.c:232). -/
def sddb_set_entry_top : Option sddbSharedState → Oid → Bool →
    Bool × Option sddbSharedState
  | none, _, _ => (false, none)
  | some st, d, r => ((sddb_set_entry st d r).1, some (sddb_set_entry st d r).2)

/-- sddb_set_pid2entry including the initial safety check (hashtable.c:273). -/
def sddb_set_pid2entry_top : Option sddbSharedState → Oid → Int →
    Bool × Option sddbSharedState
  | none, _, _ => (false, none)
  | some st, d, p => ((sddb_set_pid2entry st d p).1, some (sddb_set_pid2entry st d p).2)

/-- sddb_delete_entry including the initial safety check (hashtable.c:311). -/
def sddb_delete_entry_top : Option sddbSharedState → Oid → Option sddbSharedState
  | none, _ => none
  | some st, d => some (sddb_delete_entry st d)

/-- sddb_check_ht (shutdown_db.c:243-258): the num_ht = 0 quick check under
elock, then sddb_find_entry(MyDatabaseId, true) - true only when the
current database has an entry whose is_running flag is set. -/
def sddb_check_ht (st : sddbSharedState) (myDatabaseId : Oid) : Bool :=
  if st.num_ht = 0 then false
  else sddb_find_entry st myDatabaseId true

/-- The interception predicate of the ExecutorStart and ProcessUtility
hooks (shutdown_db.c:271, 318): the session is warned when
sddb_check_ht() holds and IsTransactionBlock() does not. -/
def sddb_hook_warns (st : sddbSharedState) (myDatabaseId : Oid)
    (isTransactionBlock : Bool) : Bool :=
  sddb_check_ht st myDatabaseId && !isTransactionBlock

/-- Outcome of a SQL-level entry point of functions.c: normal completion,
completion with a warning (already shutdown), or an ereport(ERROR) that
aborts the statement. -/
inductive SqlOutcome where
  | ok
  | warned
  | errored
deriving DecidableEq, Repr

/-- Registry-relevant effect of shutdown_transactional (functions.c:420-475)
with the database already resolved to its dbid.  The privilege, database
name and get_dbid checks precede any registry access and do not touch the
registry.  spawn_ok tells whether sddb_killer_launch succeeds: on failure
(RegisterDynamicBackgroundWorker false, BGWH_STOPPED or
BGWH_POSTMASTER_DIED, bgworker.c:514-531) an ERROR is raised and
propagates out of run_sddb_killer's SPI_execute; functions.c performs no
sddb_delete_entry on that path, so the registry keeps the state produced
by the preceding sddb_store_entry. -/
def shutdown_transactional_model (st : sddbSharedState) (d : Oid) (spawn_ok : Bool) :
    SqlOutcome × sddbSharedState :=
  if sddb_find_entry st d false then (SqlOutcome.warned, st)
  else
    match sddb_store_entry st d TRANSACTIONAL true with
    | (true, st1) => if spawn_ok then (SqlOutcome.ok, st1) else (SqlOutcome.errored, st1)
    | (false, st1) => (SqlOutcome.errored, st1)

/-- How one iteration of the killer main loop ends. -/
inductive KillerExit where
  | cancelled
  | drained
  | fatalFailure
  | continuePolling
deriving DecidableEq, Repr

/-- Process exit status of an iteration outcome: proc_exit(0) on the
SIGTERM branch (bgworker.c:436) and on the drained branch (bgworker.c:480);
elog(FATAL) terminates the worker with a nonzero status on a collaborator
failure; none while the loop continues. -/
def killer_exit_code : KillerExit → Option Nat
  | KillerExit.cancelled => some 0
  | KillerExit.drained => some 0
  | KillerExit.fatalFailure => some 1
  | KillerExit.continuePolling => none

/-- One iteration of sddb_killer_main's main loop (bgworker.c:404-482),
after the latch wait: got_sigterm is the signal flag sampled on wake; poll
is the result of the SELECT sddb_kill_processes(dbid, TRUE) query, none
modelling an SPI failure or null result (elog FATAL) and some n the count
of still-busy backends.  On the SIGTERM branch num_bgw is decremented and
the worker exits 0 without touching its entry; the poll runs only when the
flag is clear; on a zero count the worker sets its entry's is_running to
false via sddb_set_entry, decrements num_bgw and exits 0. -/
def killer_step (st : sddbSharedState) (d : Oid) (got_sigterm : Bool)
    (poll : Option Int) : KillerExit × sddbSharedState :=
  if got_sigterm then
    (KillerExit.cancelled, { st with num_bgw := st.num_bgw - 1 })
  else
    match poll with
    | none => (KillerExit.fatalFailure, st)
    | some n =>
      if n = 0 then
        (KillerExit.drained, { (sddb_set_entry st d false).2 with num_bgw := st.num_bgw - 1 })
      else
        (KillerExit.continuePolling, st)

/-- The record sddb_store_entry leaves in a fresh slot: key and dbid equal
to the stored dbid, the given mode and is_running, pid = InvalidPid. -/
def stored_record (d : Oid) (mode : Nat) (is_running : Bool) : sddbEntry :=
  { key := d, dbid := d, mode := mode, is_running := is_running, pid := InvalidPid }

/-- The record of a sample registry regA: database 7, NORMAL mode, watcher
not running, pid 33 recorded. -/
def recA : sddbEntry :=
  { key := 7, dbid := 7, mode := NORMAL, is_running := false, pid := 33 }

/-- The empty initialized registry with capacity 8, as left by
sddb_shmem_startup. -/
def reg0 : sddbSharedState :=
  { capacity := 8, table := [], num_ht := 0, num_bgw := 0 }

/-- A sample initialized registry holding the single record recA. -/
def regA : sddbSharedState :=
  { capacity := 8, table := [recA], num_ht := 1, num_bgw := 0 }

/-- A sample registry at capacity: a single slot, already holding recA. -/
def regB : sddbSharedState :=
  { capacity := 1, table := [recA], num_ht := 1, num_bgw := 0 }

/-- A sample registry holding one TRANSACTIONAL record whose watcher (pid
42) is running. -/
def regT : sddbSharedState :=
  { capacity := 4,
    table := [{ key := 3, dbid := 3, mode := TRANSACTIONAL, is_running := true, pid := 42 }],
    num_ht := 1, num_bgw := 1 }

/-- A stale-counter registry: one live record while num_ht = 0 (reachable;
see the C2 development). -/
def regStale : sddbSharedState :=
  { capacity := 8,
    table := [{ key := 1, dbid := 1, mode := NORMAL, is_running := false, pid := InvalidPid }],
    num_ht := 0, num_bgw := 0 }

/-- The registry mutations the system performs (C5): inserts as issued by
the SQL entry points and the bootstrap worker - (INIT,false) from
shutdown_db_init, (NORMAL,false), (ABORT,false), (IMMEDIATE,false) and
(TRANSACTIONAL,true) from the shutdown functions; the killer's pid
registration sddb_set_pid2entry(dbid, MyProcPid) with MyProcPid a real
pid (bgworker.c:394); the killer's drain transition
sddb_set_entry(dbid, false) (bgworker.c:471); and startup's
sddb_delete_entry (functions.c:527). -/
inductive SysStep : sddbSharedState → sddbSharedState → Prop where
  | store_init (st : sddbSharedState) (d : Oid) :
      SysStep st (sddb_store_entry st d INIT false).2
  | store_normal (st : sddbSharedState) (d : Oid) :
      SysStep st (sddb_store_entry st d NORMAL false).2
  | store_abort (st : sddbSharedState) (d : Oid) :
      SysStep st (sddb_store_entry st d ABORT false).2
  | store_immediate (st : sddbSharedState) (d : Oid) :
      SysStep st (sddb_store_entry st d IMMEDIATE false).2
  | store_transactional (st : sddbSharedState) (d : Oid) :
      SysStep st (sddb_store_entry st d TRANSACTIONAL true).2
  | register_pid (st : sddbSharedState) (d : Oid) (p : Int) (h : p ≠ InvalidPid) :
      SysStep st (sddb_set_pid2entry st d p).2
  | set_not_running (st : sddbSharedState) (d : Oid) :
      SysStep st (sddb_set_entry st d false).2
  | remove (st : sddbSharedState) (d : Oid) :
      SysStep st (sddb_delete_entry st d)

/-- States reachable from the initial registry (num_ht = 0, num_bgw = 0,
empty table, as set up by sddb_shmem_startup) by system operations. -/
inductive Reachable : sddbSharedState → Prop where
  | init (cap : Nat) :
      Reachable { capacity := cap, table := [], num_ht := 0, num_bgw := 0 }
  | step (st st2 : sddbSharedState) :
      Reachable st → SysStep st st2 → Reachable st2

/-!
Helper lemmas about the list model of the hash table and about the
registry operations.
-/

/-- An element of an updated table is an old element or the image of one. -/
theorem mem_update_first {t : List sddbEntry} {d : Oid} {f : sddbEntry → sddbEntry}
    {x : sddbEntry} (hx : x ∈ update_first t d f) :
    x ∈ t ∨ ∃ e, e ∈ t ∧ x = f e := by
  induction t with
  | nil => simp [update_first] at hx
  | cons a t ih =>
    by_cases h : a.key = d
    · simp only [update_first, if_pos h, List.mem_cons] at hx
      rcases hx with hx | hx
      · exact Or.inr ⟨a, List.mem_cons_self a t, hx⟩
      · exact Or.inl (List.mem_cons_of_mem a hx)
    · simp only [update_first, if_neg h, List.mem_cons] at hx
      rcases hx with hx | hx
      · exact Or.inl (by simp [hx])
      · rcases ih hx with h1 | ⟨e, he, hxe⟩
        · exact Or.inl (List.mem_cons_of_mem a h1)
        · exact Or.inr ⟨e, List.mem_cons_of_mem a he, hxe⟩

/-- An element of a table after HASH_REMOVE was already in the table. -/
theorem mem_erase_first {t : List sddbEntry} {d : Oid} {x : sddbEntry}
    (hx : x ∈ erase_first t d) : x ∈ t := by
  induction t with
  | nil => simp [erase_first] at hx
  | cons a t ih =>
    by_cases h : a.key = d
    · simp only [erase_first, if_pos h] at hx
      exact List.mem_cons_of_mem a hx
    · simp only [erase_first, if_neg h, List.mem_cons] at hx
      rcases hx with hx | hx
      · simp [hx]
      · exact List.mem_cons_of_mem a (ih hx)

/-- Updating the key d in a table that lacked d and was extended with a
fresh entry keyed d rewrites exactly that fresh entry. -/
theorem update_first_append_of_none (t : List sddbEntry) (d : Oid)
    (f : sddbEntry → sddbEntry) (e : sddbEntry) (h : find_key t d = none)
    (he : e.key = d) :
    update_first (t ++ [e]) d f = t ++ [f e] := by
  induction t with
  | nil => simp [update_first, he]
  | cons a t ih =>
    have ha : ¬ a.key = d := by
      intro hk
      simp [find_key, hk] at h
    have ht : find_key t d = none := by simpa [find_key, ha] using h
    simp [update_first, ha, ih ht]

/-- Updating a key through a key-preserving field rewrite makes the lookup
of that key return the rewritten entry. -/
theorem find_key_update_first_self (t : List sddbEntry) (d : Oid)
    (f : sddbEntry → sddbEntry) (hf : ∀ x, (f x).key = x.key) {e : sddbEntry}
    (h : find_key t d = some e) :
    find_key (update_first t d f) d = some (f e) := by
  induction t with
  | nil => simp [find_key] at h
  | cons a t ih =>
    by_cases ha : a.key = d
    · simp only [find_key, if_pos ha, Option.some.injEq] at h
      subst h
      simp [update_first, if_pos ha, find_key, hf a, ha]
    · simp only [find_key, if_neg ha] at h
      simp [update_first, if_neg ha, find_key, ha, ih h]

/-- Updating a key through a key-preserving field rewrite leaves the lookup
of every other key unchanged. -/
theorem find_key_update_first_ne (t : List sddbEntry) (d d2 : Oid)
    (f : sddbEntry → sddbEntry) (hf : ∀ x, (f x).key = x.key) (hne : d2 ≠ d) :
    find_key (update_first t d f) d2 = find_key t d2 := by
  induction t with
  | nil => simp [update_first]
  | cons a t ih =>
    by_cases ha : a.key = d
    · have h1 : ¬ (f a).key = d2 := by
        rw [hf a, ha]
        exact fun hc => hne hc.symm
      have h2 : ¬ a.key = d2 := by
        rw [ha]
        exact fun hc => hne hc.symm
      simp [update_first, if_pos ha, find_key, h1, h2]
    · simp [update_first, if_neg ha, find_key, ih]

/-- The shared-mode probe of sddb_store_entry rejects a present key with no
mutation (hashtable.c:77-86). -/
theorem store_of_found {st : sddbSharedState} {d : Oid} {e : sddbEntry}
    (h : find_key st.table d = some e) (m : Nat) (r : Bool) :
    sddb_store_entry st d m r = (false, st) := by
  simp [sddb_store_entry, h]

/-- The exclusive phase of sddb_store_entry, run on a state that already
contains the key: alloc_entry finds the entry, the field store overwrites
it and num_ht is still incremented. -/
theorem store_exclusive_of_found {st : sddbSharedState} {d : Oid} {e : sddbEntry}
    (h : find_key st.table d = some e) (m : Nat) (r : Bool) :
    store_exclusive st d m r
      = (true, { st with table := update_first st.table d (store_fields d m r),
                         num_ht := st.num_ht + 1 }) := by
  simp [store_exclusive, alloc_entry, h]

/-- sddb_store_entry on a full table with an absent key fails with no
mutation (hashtable.c:91-97). -/
theorem store_of_full {st : sddbSharedState} {d : Oid}
    (h : find_key st.table d = none) (hfull : st.capacity ≤ st.table.length)
    (m : Nat) (r : Bool) :
    sddb_store_entry st d m r = (false, st) := by
  simp [sddb_store_entry, store_exclusive, alloc_entry, h, Nat.not_lt.mpr hfull]

/-- sddb_store_entry on an absent key with room: the table is extended by
stored_record and num_ht is incremented. -/
theorem store_of_room {st : sddbSharedState} {d : Oid}
    (h : find_key st.table d = none) (hroom : st.table.length < st.capacity)
    (m : Nat) (r : Bool) :
    sddb_store_entry st d m r
      = (true, { st with table := st.table ++ [stored_record d m r],
                         num_ht := st.num_ht + 1 }) := by
  have hup := update_first_append_of_none st.table d (store_fields d m r)
    { key := d, dbid := InvalidOid, mode := INIT, is_running := false, pid := InvalidPid }
    h rfl
  simp [sddb_store_entry, store_exclusive, alloc_entry, h, hroom, hup,
    store_fields, stored_record]

/-- The two possible tables after sddb_store_entry: unchanged, or extended
by the freshly stored record. -/
theorem store_table_cases (st : sddbSharedState) (d : Oid) (m : Nat) (r : Bool) :
    (sddb_store_entry st d m r).2.table = st.table ∨
    (sddb_store_entry st d m r).2.table = st.table ++ [stored_record d m r] := by
  cases hf : find_key st.table d with
  | some e =>
    left
    rw [store_of_found hf m r]
  | none =>
    by_cases hroom : st.table.length < st.capacity
    · right
      rw [store_of_room hf hroom m r]
    · left
      rw [store_of_full hf (Nat.not_lt.mp hroom) m r]

/-- Membership in the table after sddb_store_entry. -/
theorem mem_store_table {st : sddbSharedState} {d : Oid} {m : Nat} {r : Bool}
    {e : sddbEntry} (he : e ∈ (sddb_store_entry st d m r).2.table) :
    e ∈ st.table ∨ e = stored_record d m r := by
  rcases store_table_cases st d m r with hc | hc
  · rw [hc] at he
    exact Or.inl he
  · rw [hc] at he
    rcases List.mem_append.mp he with h1 | h1
    · exact Or.inl h1
    · simp at h1
      exact Or.inr h1

/-- sddb_set_entry on a present key. -/
theorem set_entry_of_found {st : sddbSharedState} {d : Oid} {e : sddbEntry}
    (h : find_key st.table d = some e) (r : Bool) :
    sddb_set_entry st d r
      = (true, { st with
          table := update_first st.table d (fun x => { x with is_running := r }) }) := by
  simp [sddb_set_entry, h]

/-- sddb_set_entry on an absent key: false, no mutation. -/
theorem set_entry_of_none {st : sddbSharedState} {d : Oid}
    (h : find_key st.table d = none) (r : Bool) :
    sddb_set_entry st d r = (false, st) := by
  simp [sddb_set_entry, h]

/-- sddb_set_pid2entry on a present key. -/
theorem set_pid_of_found {st : sddbSharedState} {d : Oid} {e : sddbEntry}
    (h : find_key st.table d = some e) (p : Int) :
    sddb_set_pid2entry st d p
      = (true, { st with
          table := update_first st.table d (fun x => { x with pid := p }) }) := by
  simp [sddb_set_pid2entry, h]

/-- sddb_set_pid2entry on an absent key: false, no mutation. -/
theorem set_pid_of_none {st : sddbSharedState} {d : Oid}
    (h : find_key st.table d = none) (p : Int) :
    sddb_set_pid2entry st d p = (false, st) := by
  simp [sddb_set_pid2entry, h]

/-- Membership in the table after sddb_set_entry. -/
theorem mem_set_entry_table {st : sddbSharedState} {d : Oid} {r : Bool}
    {e : sddbEntry} (he : e ∈ (sddb_set_entry st d r).2.table) :
    e ∈ st.table ∨ ∃ x, x ∈ st.table ∧ e = { x with is_running := r } := by
  cases hf : find_key st.table d with
  | none =>
    rw [set_entry_of_none hf r] at he
    exact Or.inl he
  | some a =>
    rw [set_entry_of_found hf r] at he
    exact mem_update_first he

/-- Membership in the table after sddb_set_pid2entry. -/
theorem mem_set_pid_table {st : sddbSharedState} {d : Oid} {p : Int}
    {e : sddbEntry} (he : e ∈ (sddb_set_pid2entry st d p).2.table) :
    e ∈ st.table ∨ ∃ x, x ∈ st.table ∧ e = { x with pid := p } := by
  cases hf : find_key st.table d with
  | none =>
    rw [set_pid_of_none hf p] at he
    exact Or.inl he
  | some a =>
    rw [set_pid_of_found hf p] at he
    exact mem_update_first he

/-!
Claim theorems.
-/

/-- Claim C1, counterexample: the exclusive-mode phase of insert does not
re-validate non-existence.  Run on a state that already contains key 7
(regA), alloc_entry returns the existing entry, the field store overwrites
its mode, is_running and pid, and num_ht is incremented from 1 to 2 - the
registry and record_count are not left unchanged. -/
theorem C1_counterexample :
    store_exclusive regA 7 TRANSACTIONAL true
      = (true, { capacity := 8,
                 table := [{ key := 7, dbid := 7, mode := TRANSACTIONAL,
                             is_running := true, pid := InvalidPid }],
                 num_ht := 2, num_bgw := 0 }) := by
  decide

/-- Claim C1, amended: sddb_store_entry returns false with no mutation when
the key is already present or when the key is absent and capacity is
exhausted, but this depends on the initial shared-mode probe: the
exclusive-mode phase performs no re-validation and, run on a state that
already contains the key, overwrites the record's fields and increments
num_ht. -/
theorem C1_store_rejects (st : sddbSharedState) (d : Oid) (m : Nat) (r : Bool) :
    ((find_key st.table d).isSome = true → sddb_store_entry st d m r = (false, st)) ∧
    (find_key st.table d = none → st.capacity ≤ st.table.length →
      sddb_store_entry st d m r = (false, st)) ∧
    ((find_key st.table d).isSome = true →
      store_exclusive st d m r
        = (true, { st with table := update_first st.table d (store_fields d m r),
                           num_ht := st.num_ht + 1 })) := by
  refine ⟨?_, ?_, ?_⟩
  · intro h
    rcases Option.isSome_iff_exists.mp h with ⟨e, he⟩
    exact store_of_found he m r
  · intro h hfull
    exact store_of_full h hfull m r
  · intro h
    rcases Option.isSome_iff_exists.mp h with ⟨e, he⟩
    exact store_exclusive_of_found he m r

/-- Claim C1, witness: the rejection branches and the exclusive phase at
concrete registries - regA holds key 7, regB is at capacity with key 9
absent. -/
theorem C1_witness :
    sddb_store_entry regA 7 NORMAL false = (false, regA) ∧
    sddb_store_entry regB 9 NORMAL false = (false, regB) ∧
    store_exclusive regA 7 TRANSACTIONAL true
      = (true, { regA with table := update_first regA.table 7 (store_fields 7 TRANSACTIONAL true),
                           num_ht := regA.num_ht + 1 }) :=
  ⟨(C1_store_rejects regA 7 NORMAL false).1 (by decide),
   (C1_store_rejects regB 9 NORMAL false).2.1 (by decide) (by decide),
   (C1_store_rejects regA 7 TRANSACTIONAL true).2.2 (by decide)⟩

/-- Claim C2: from the empty registry, the reachable two-operation sequence
sddb_store_entry(1, NORMAL, false) then sddb_delete_entry(2) leaves one
live record while num_ht = 0, because sddb_delete_entry decrements num_ht
even though key 2 was absent; record_count does not equal the number of
live records in this reachable state. -/
theorem C2_count_violation :
    (sddb_delete_entry (sddb_store_entry reg0 1 NORMAL false).2 2).table.length = 1 ∧
    (sddb_delete_entry (sddb_store_entry reg0 1 NORMAL false).2 2).num_ht = 0 := by
  decide

/-- Claim C3: sddb_delete_entry on an absent key (2) leaves the table and
all records untouched but still decrements num_ht - it is not a no-op on
record_count. -/
theorem C3_delete_absent :
    sddb_delete_entry regA 2 = { regA with num_ht := 0 } := by
  decide

/-- Claim C4: with the registry initially empty, shutdown_transactional on
dbid 5 whose watcher spawn fails ends in an ERROR, and the record inserted
by sddb_store_entry stays behind in the registry with mode TRANSACTIONAL,
is_running = true and pid = InvalidPid - no rollback happens. -/
theorem C4_no_rollback :
    shutdown_transactional_model reg0 5 false
      = (SqlOutcome.errored,
         { capacity := 8, table := [stored_record 5 TRANSACTIONAL true],
           num_ht := 1, num_bgw := 0 }) := by
  decide

/-- Claim C5, counterexample: the insert operation itself produces a record
with pid = InvalidPid and is_running = true - sddb_store_entry in
TRANSACTIONAL mode stores is_running = true and pid = InvalidPid, as
issued by shutdown_transactional before the watcher registers its pid. -/
theorem C5_counterexample :
    (sddb_store_entry reg0 5 TRANSACTIONAL true).2.table
      = [stored_record 5 TRANSACTIONAL true] ∧
    (stored_record 5 TRANSACTIONAL true).pid = InvalidPid ∧
    (stored_record 5 TRANSACTIONAL true).is_running = true := by
  decide

/-- Claim C5, amended: in every state reachable by the operations of the
system, every live record with pid = InvalidPid has is_running = false or
mode = TRANSACTIONAL; the TRANSACTIONAL insert is the one operation that
creates a running record before any pid is registered. -/
theorem C5_pid_invariant (st : sddbSharedState) (hst : Reachable st) :
    ∀ e ∈ st.table, e.pid = InvalidPid → e.is_running = false ∨ e.mode = TRANSACTIONAL := by
  induction hst with
  | init cap =>
    intro e he hpid
    simp at he
  | step st1 st2 hr hs ih =>
    cases hs with
    | store_init d =>
      intro e he hpid
      rcases mem_store_table he with h | h
      · exact ih e h hpid
      · subst h
        exact Or.inl rfl
    | store_normal d =>
      intro e he hpid
      rcases mem_store_table he with h | h
      · exact ih e h hpid
      · subst h
        exact Or.inl rfl
    | store_abort d =>
      intro e he hpid
      rcases mem_store_table he with h | h
      · exact ih e h hpid
      · subst h
        exact Or.inl rfl
    | store_immediate d =>
      intro e he hpid
      rcases mem_store_table he with h | h
      · exact ih e h hpid
      · subst h
        exact Or.inl rfl
    | store_transactional d =>
      intro e he hpid
      rcases mem_store_table he with h | h
      · exact ih e h hpid
      · subst h
        exact Or.inr rfl
    | register_pid d p hp =>
      intro e he hpid
      rcases mem_set_pid_table he with h | ⟨x, hx, hex⟩
      · exact ih e h hpid
      · subst hex
        exact absurd hpid hp
    | set_not_running d =>
      intro e he hpid
      rcases mem_set_entry_table he with h | ⟨x, hx, hex⟩
      · exact ih e h hpid
      · subst hex
        exact Or.inl rfl
    | remove d =>
      intro e he hpid
      exact ih e (mem_erase_first he) hpid

/-- Claim C5, witness: the invariant instantiated at the reachable state
produced by a TRANSACTIONAL insert into the empty registry, at its single
record. -/
theorem C5_witness :
    (stored_record 5 TRANSACTIONAL true).is_running = false ∨
    (stored_record 5 TRANSACTIONAL true).mode = TRANSACTIONAL :=
  C5_pid_invariant (sddb_store_entry reg0 5 TRANSACTIONAL true).2
    (Reachable.step reg0 (sddb_store_entry reg0 5 TRANSACTIONAL true).2
      (Reachable.init 8) (SysStep.store_transactional reg0 5))
    (stored_record 5 TRANSACTIONAL true) (by decide) (by decide)

/-- Claim C6, counterexample: in registry regA the current database (7) has
a record (mode NORMAL, is_running = false) and the session is not inside a
transaction block, yet the interception predicate is false - the hooks
warn only when the record's is_running flag is set, not whenever a record
exists in any mode. -/
theorem C6_counterexample :
    sddb_hook_warns regA 7 false = false ∧ (find_key regA.table 7).isSome = true := by
  decide

/-- Claim C6, amended: on every registry whose record count is consistent
with emptiness (num_ht = 0 only when the table is empty), the interception
predicate of the hooks is true - and the session is warned - exactly when
the current database has a record with is_running = true and the session
is not inside a transaction block. -/
theorem C6_intercept (st : sddbSharedState) (d : Oid) (b : Bool)
    (hinv : st.num_ht = 0 → st.table = []) :
    sddb_hook_warns st d b = true ↔
      ((∃ e, find_key st.table d = some e ∧ e.is_running = true) ∧ b = false) := by
  by_cases hz : st.num_ht = 0
  · simp [sddb_hook_warns, sddb_check_ht, sddb_find_entry, hz, hinv hz, find_key]
  · cases hf : find_key st.table d with
    | none => simp [sddb_hook_warns, sddb_check_ht, sddb_find_entry, hz, hf]
    | some e => simp [sddb_hook_warns, sddb_check_ht, sddb_find_entry, hz, hf]

/-- Claim C6, witness: the predicate fires on regT (database 3 shut down
TRANSACTIONAL with its watcher running) outside a transaction block. -/
theorem C6_witness :
    sddb_hook_warns regT 3 false = true :=
  (C6_intercept regT 3 false (by decide)).mpr
    ⟨⟨{ key := 3, dbid := 3, mode := TRANSACTIONAL, is_running := true, pid := 42 },
      by decide, rfl⟩, rfl⟩

/-- Claim C7, counterexample: an uninitialized registry is not
distinguishable from an initialized registry lacking the key:
sddb_find_entry returns false and sddb_get_pid returns InvalidPid in both
situations (key 5, empty initialized registry reg0). -/
theorem C7_counterexample :
    sddb_find_entry_top none 5 false = false ∧
    sddb_find_entry_top (some reg0) 5 false = false ∧
    sddb_get_pid_top none 5 false = InvalidPid ∧
    sddb_get_pid_top (some reg0) 5 false = InvalidPid := by
  decide

/-- Claim C7, amended: every Registry Store entry point detects the
uninitialized registry and returns early without touching any state, but
the result is the ordinary failure value (false, InvalidPid, or a silent
return) - the same result "key not found" produces, not a distinct
precondition-failure report; the distinct report (ereport ERROR in
check_workenv, functions.c:77-85) exists only at the SQL level, above
these entry points. -/
theorem C7_uninitialized_guards (d : Oid) (m : Nat) (r : Bool) (p : Int) (a : Bool) :
    sddb_store_entry_top none d m r = (false, none) ∧
    sddb_find_entry_top none d r = false ∧
    sddb_get_pid_top none d a = InvalidPid ∧
    sddb_set_entry_top none d r = (false, none) ∧
    sddb_set_pid2entry_top none d p = (false, none) ∧
    sddb_delete_entry_top none d = none :=
  ⟨rfl, rfl, rfl, rfl, rfl, rfl⟩

/-- Claim C8, counterexample: on the reachable stale-counter registry
regStale (num_ht = 0 while a record for key 1 is live) the num_ht = 0 fast
path makes sddb_find_entry return false although the key exists, so the
claimed equivalence does not hold for every initialized registry state. -/
theorem C8_counterexample :
    sddb_find_entry regStale 1 false = false ∧
    (find_key regStale.table 1).isSome = true := by
  decide

/-- Claim C8, amended: on every initialized registry whose record count is
consistent with emptiness (num_ht = 0 only when the table is empty, a
consequence of the record-count invariant), sddb_find_entry with
running_only = false is true exactly when the key exists, with
running_only = true exactly when the key exists with is_running = true;
and whenever num_ht = 0 it returns false without consulting the table. -/
theorem C8_find_entry (st : sddbSharedState) (d : Oid)
    (hinv : st.num_ht = 0 → st.table = []) :
    (sddb_find_entry st d false = true ↔ (find_key st.table d).isSome = true) ∧
    (sddb_find_entry st d true = true ↔
      ∃ e, find_key st.table d = some e ∧ e.is_running = true) ∧
    (∀ r : Bool, st.num_ht = 0 → sddb_find_entry st d r = false) := by
  refine ⟨?_, ?_, ?_⟩
  · by_cases hz : st.num_ht = 0
    · simp [sddb_find_entry, hz, hinv hz, find_key]
    · cases hf : find_key st.table d with
      | none => simp [sddb_find_entry, hz, hf]
      | some e => simp [sddb_find_entry, hz, hf]
  · by_cases hz : st.num_ht = 0
    · simp [sddb_find_entry, hz, hinv hz, find_key]
    · cases hf : find_key st.table d with
      | none => simp [sddb_find_entry, hz, hf]
      | some e => simp [sddb_find_entry, hz, hf]
  · intro r hz
    simp [sddb_find_entry, hz]

/-- Claim C8, witness: the existence lookup observes the record of regA
and the running-only lookup observes the running record of regT. -/
theorem C8_witness :
    sddb_find_entry regA 7 false = true :=
  ((C8_find_entry regA 7 (by decide)).1).mpr (by decide)

/-- Claim C9: exit discipline of one iteration of the killer main loop, at
any registry whose table holds an entry e for the watched database: the
stop flag is checked first, so with got_sigterm set the iteration ends
CANCELLED with only num_bgw decremented - the registry table (hence
is_running) untouched and the poll never consulted - and exits with
status 0; with the flag clear and the active-session count 0 the
iteration ends DRAINED having set the record's is_running to false and
decremented num_bgw, and exits with status 0; a nonzero count continues
polling with no state change. -/
theorem C9_exit_discipline (st : sddbSharedState) (d : Oid) (e : sddbEntry)
    (hfound : find_key st.table d = some e) :
    (∀ poll : Option Int,
      killer_step st d true poll
        = (KillerExit.cancelled, { st with num_bgw := st.num_bgw - 1 })) ∧
    killer_exit_code KillerExit.cancelled = some 0 ∧
    (killer_step st d false (some 0)).1 = KillerExit.drained ∧
    find_key (killer_step st d false (some 0)).2.table d
      = some { e with is_running := false } ∧
    (killer_step st d false (some 0)).2.num_bgw = st.num_bgw - 1 ∧
    killer_exit_code KillerExit.drained = some 0 ∧
    (∀ n : Int, n ≠ 0 →
      killer_step st d false (some n) = (KillerExit.continuePolling, st)) := by
  refine ⟨fun poll => rfl, rfl, rfl, ?_, rfl, rfl, ?_⟩
  · show find_key ((sddb_set_entry st d false).2).table d = some { e with is_running := false }
    rw [set_entry_of_found hfound false]
    exact find_key_update_first_self st.table d
      (fun x => { x with is_running := false }) (fun x => rfl) hfound
  · intro n hn
    simp [killer_step, hn]

/-- Claim C9, witness: one iteration at regT (database 3, watcher running):
a SIGTERM iteration ends CANCELLED with num_bgw 0 and the record intact,
and a drained iteration rewrites the record's is_running to false. -/
theorem C9_witness :
    killer_step regT 3 true (some 2)
      = (KillerExit.cancelled, { regT with num_bgw := 0 }) ∧
    find_key (killer_step regT 3 false (some 0)).2.table 3
      = some { key := 3, dbid := 3, mode := TRANSACTIONAL, is_running := false, pid := 42 } :=
  ⟨(C9_exit_discipline regT 3
      { key := 3, dbid := 3, mode := TRANSACTIONAL, is_running := true, pid := 42 }
      (by decide)).1 (some 2),
   (C9_exit_discipline regT 3
      { key := 3, dbid := 3, mode := TRANSACTIONAL, is_running := true, pid := 42 }
      (by decide)).2.2.2.1⟩

/-- Claim C10: on every initialized registry whose table holds an entry e
for the key, sddb_set_entry succeeds and changes only that record's
is_running field - its key, dbid, mode and pid, every other record, the
capacity and the counters num_ht and num_bgw are unchanged -
sddb_set_pid2entry likewise changes only the pid field; and
sddb_store_entry on the present key is rejected by the probe with no
mutation, so no registry operation ever rewrites a live record's mode
after creation. -/
theorem C10_field_updates (st : sddbSharedState) (d : Oid) (e : sddbEntry)
    (r : Bool) (p : Int) (m : Nat) (hfound : find_key st.table d = some e) :
    ((sddb_set_entry st d r).1 = true ∧
      (sddb_set_entry st d r).2.capacity = st.capacity ∧
      (sddb_set_entry st d r).2.num_ht = st.num_ht ∧
      (sddb_set_entry st d r).2.num_bgw = st.num_bgw ∧
      find_key (sddb_set_entry st d r).2.table d = some { e with is_running := r } ∧
      (∀ d2, d2 ≠ d →
        find_key (sddb_set_entry st d r).2.table d2 = find_key st.table d2)) ∧
    ((sddb_set_pid2entry st d p).1 = true ∧
      (sddb_set_pid2entry st d p).2.capacity = st.capacity ∧
      (sddb_set_pid2entry st d p).2.num_ht = st.num_ht ∧
      (sddb_set_pid2entry st d p).2.num_bgw = st.num_bgw ∧
      find_key (sddb_set_pid2entry st d p).2.table d = some { e with pid := p } ∧
      (∀ d2, d2 ≠ d →
        find_key (sddb_set_pid2entry st d p).2.table d2 = find_key st.table d2)) ∧
    sddb_store_entry st d m r = (false, st) := by
  have hset := set_entry_of_found hfound r
  have hpid := set_pid_of_found hfound p
  refine ⟨⟨?_, ?_, ?_, ?_, ?_, ?_⟩, ⟨?_, ?_, ?_, ?_, ?_, ?_⟩, store_of_found hfound m r⟩
  · rw [hset]
  · rw [hset]
  · rw [hset]
  · rw [hset]
  · rw [hset]
    exact find_key_update_first_self st.table d
      (fun x => { x with is_running := r }) (fun x => rfl) hfound
  · intro d2 hd2
    rw [hset]
    exact find_key_update_first_ne st.table d d2
      (fun x => { x with is_running := r }) (fun x => rfl) hd2
  · rw [hpid]
  · rw [hpid]
  · rw [hpid]
  · rw [hpid]
  · rw [hpid]
    exact find_key_update_first_self st.table d
      (fun x => { x with pid := p }) (fun x => rfl) hfound
  · intro d2 hd2
    rw [hpid]
    exact find_key_update_first_ne st.table d d2
      (fun x => { x with pid := p }) (fun x => rfl) hd2

/-- Claim C10, witness: updating the is_running flag of regA's record for
database 7 yields the same record with only is_running rewritten. -/
theorem C10_witness :
    find_key (sddb_set_entry regA 7 true).2.table 7
      = some { recA with is_running := true } :=
  (C10_field_updates regA 7 recA true 42 NORMAL (by decide)).1.2.2.2.2.1
